import Mathlib

/-!
Verification of the tool-calling abstraction and multi-provider LLM router of
`stacks/rag-platform/services/api` (files `src/tools/create-tool.ts`,
`src/tools/registry.ts`, `src/engine/llm-router.ts`), shallowly embedded in
Lean 4.

JavaScript runtime values that flow through the embedded fragment are
modelled by `JsValue`; an object's property that is absent (JS `undefined`)
is modelled as `Option.none` at the use site, while JS `null` is the
explicit value `JsValue.null`.  Numeric values are modelled as integers:
the embedded fragment performs no arithmetic on argument values, it only
moves them around and prints them.
-/

/-- A JavaScript runtime value (the untyped payloads that flow through the
tool system: tool arguments, handler results, JSON bodies). -/
inductive JsValue where
  | null : JsValue
  | bool : Bool → JsValue
  | num : Int → JsValue
  | str : String → JsValue
  | arr : List JsValue → JsValue
  | obj : List (String × JsValue) → JsValue

/-- JS objects / `Map`s keyed by strings, as insertion-ordered association
lists.  A key not present models a property that is `undefined`. -/
def mapGet {α : Type} (m : List (String × α)) (k : String) : Option α :=
  match m with
  | [] => none
  | (k', v) :: rest => if k' = k then some v else mapGet rest k

/-- `m[k] = v` on a JS object / `Map`: overwrites in place if the key exists
(JS keeps the original insertion position), otherwise appends. -/
def mapSet {α : Type} (m : List (String × α)) (k : String) (v : α) :
    List (String × α) :=
  match m with
  | [] => [(k, v)]
  | (k', v') :: rest =>
    if k' = k then (k, v) :: rest else (k', v') :: mapSet rest k v

/-- An argument bag (`Record<string, unknown>`): the `arguments` of a tool
call, the `params` given to a handler.  Absent key = JS `undefined`. -/
abbrev Args := List (String × JsValue)

/-- JS truthiness of a `string | undefined` value (`undefined` and the empty
string are falsy). -/
def jsTruthyStr (s : Option String) : Bool :=
  match s with
  | none => false
  | some s => s ≠ ""

mutual

/-- JS `String(v)` — the conversion used by template literals such as
`` `Invalid value for ${key}: "${params[key]}"` ``. -/
def jsToString : JsValue → String
  | .null => "null"
  | .bool true => "true"
  | .bool false => "false"
  | .num n => toString n
  | .str s => s
  | .arr xs => String.intercalate "," (jsToStringList xs)
  | .obj _ => "[object Object]"

/-- Elementwise JS string conversion inside `Array.prototype.join` (null and
undefined elements print as the empty string). -/
def jsToStringList : List JsValue → List String
  | [] => []
  | .null :: xs => "" :: jsToStringList xs
  | x :: xs => jsToString x :: jsToStringList xs

end

/-- The characters `JSON.stringify` escapes in the strings that occur in this
development (backslash and double quote; control characters do not occur). -/
def jsonEscapeChar (c : Char) : String :=
  if c = '\\' then "\\\\"
  else if c = '\x22' then "\\\x22"
  else String.singleton c

/-- A JSON string literal: the argument surrounded by double quotes, with
backslash and quote escaped. -/
def jsonQuote (s : String) : String :=
  "\x22" ++ String.join (s.data.map jsonEscapeChar) ++ "\x22"

mutual

/-- `JSON.stringify` for `JsValue` (object properties are all defined, so no
key is dropped). -/
def jsonStringify : JsValue → String
  | .null => "null"
  | .bool true => "true"
  | .bool false => "false"
  | .num n => toString n
  | .str s => jsonQuote s
  | .arr xs => "[" ++ String.intercalate "," (jsonStringifyList xs) ++ "]"
  | .obj fs => "\x7b" ++ String.intercalate "," (jsonStringifyObj fs) ++ "\x7d"

/-- `JSON.stringify` of each element of an array. -/
def jsonStringifyList : List JsValue → List String
  | [] => []
  | x :: xs => jsonStringify x :: jsonStringifyList xs

/-- `JSON.stringify` of each `key: value` member of an object. -/
def jsonStringifyObj : List (String × JsValue) → List String
  | [] => []
  | (k, v) :: fs => (jsonQuote k ++ ":" ++ jsonStringify v) :: jsonStringifyObj fs

end

/-!
## Tool system data model (`src/tools/types.ts` shapes, as used by
`create-tool.ts` and `registry.ts`)
-/

/-- One parameter of a tool (`ParameterDefinition`): `type`, `description`,
optional `required`, optional `enum` of allowed string values, optional
`default`, optional `items` element type for arrays. -/
structure ParameterDefinition where
  type : String
  description : String
  required : Bool := false
  enum : Option (List String) := none
  default : Option JsValue := none
  items : Option String := none

/-- A tool definition: validated `name`, `description`, and the ordered
parameter-name → spec mapping. -/
structure ToolDefinition where
  name : String
  description : String
  parameters : List (String × ParameterDefinition)

/-- Per-invocation context passed to every handler (`ToolContext`): the
owning bot, the requesting user, optionally the conversation. -/
structure ToolContext where
  botId : String
  userId : String
  conversationId : Option String := none

/-- A value thrown by JS code: either an `Error` instance (with a message)
or any other thrown value. -/
inductive JsThrown where
  | errObj : String → JsThrown
  | nonError : JsThrown

/-- `error instanceof Error ? error.message : 'Unknown error'` — the
conversion `ToolRegistry.execute` applies to a caught thrown value. -/
def JsThrown.toMessage : JsThrown → String
  | .errObj m => m
  | .nonError => "Unknown error"

/-- A tool handler: `(params, context) => result`, which may throw.  The
asynchronous effect is collapsed; a rejected promise is `Except.error`. -/
abbrev ToolHandler := Args → ToolContext → Except JsThrown JsValue

/-- A `Tool`: one definition plus one (wrapped) handler. -/
structure Tool where
  definition : ToolDefinition
  handler : ToolHandler

/-- A canonical tool call request: `name` + `arguments`. -/
structure ToolCallRequest where
  name : String
  arguments : Args

/-- A tool call result: `name`, `result` payload (`JsValue.null` on every
failure path), and `error` which is absent (`none`) exactly on success. -/
structure ToolCallResult where
  name : String
  result : JsValue
  error : Option String := none

/-!
## `createTool` (`src/tools/create-tool.ts`, lines 50–98)
-/

/-- `'a' <= c && c <= 'z'` — the character class `[a-z]`. -/
def isLowerAlpha (c : Char) : Bool := 'a' ≤ c && c ≤ 'z'

/-- The character class `[a-z0-9_]`. -/
def isNameTailChar (c : Char) : Bool :=
  isLowerAlpha c || ('0' ≤ c && c ≤ '9') || c = '_'

/-- `/^[a-z][a-z0-9_]*$/.test(name)`: a lowercase letter followed by only
lowercase letters, digits and underscores. -/
def validToolName (s : String) : Bool :=
  match s.data with
  | [] => false
  | c :: cs => isLowerAlpha c && cs.all isNameTailChar

/-- `params[key] === undefined || params[key] === null` — the missing-value
test of the required-parameter check. -/
def isMissingValue (v : Option JsValue) : Bool :=
  match v with
  | none => true
  | some .null => true
  | some _ => false

/-- `param.enum.includes(params[key])` — JS `Array.prototype.includes` with
strict equality: only a string value can be a member of a string enum. -/
def enumIncludes (allowed : List String) (v : JsValue) : Bool :=
  match v with
  | .str s => allowed.contains s
  | _ => false

/-- Default injection (`create-tool.ts` lines 76–79):
`if (params[key] === undefined && param.default !== undefined)
params[key] = param.default` — only a strictly absent (undefined) argument
is replaced; an explicit `null` is left alone. -/
def applyDefault (key : String) (param : ParameterDefinition) (args : Args) :
    Args :=
  match mapGet args key, param.default with
  | none, some d => mapSet args key d
  | _, _ => args

/-- The enum check (`create-tool.ts` lines 81–88) on the possibly-defaulted
argument bag: fires whenever an enum is declared and the value is present
(not `undefined` — an explicit `null` is checked, and is never a member of
a string enum). -/
def checkEnum (key : String) (param : ParameterDefinition) (args : Args) :
    Except String Args :=
  match param.enum with
  | some allowed =>
    match mapGet args key with
    | some v =>
      if enumIncludes allowed v then .ok args
      else
        .error ("Invalid value for " ++ key ++ ": \x22" ++ jsToString v ++
          "\x22. Must be one of: " ++ String.intercalate ", " allowed)
    | none => .ok args
  | none => .ok args

/-- One iteration of the validation loop of the wrapped handler
(`create-tool.ts` lines 71–89) for the declared parameter `key ↦ param`,
acting on the current argument bag: required check, then default injection,
then enum check; `Except.error` models the `throw`. -/
def validateStep (key : String) (param : ParameterDefinition) (args : Args) :
    Except String Args :=
  if param.required && isMissingValue (mapGet args key) then
    .error ("Missing required parameter: " ++ key)
  else
    checkEnum key param (applyDefault key param args)

/-- The whole validation loop (`for (const [key, param] of
Object.entries(parameters))`): parameters in declaration order, stopping at
the first thrown error, threading the mutated argument bag. -/
def validateParams (parameters : List (String × ParameterDefinition))
    (args : Args) : Except String Args :=
  match parameters with
  | [] => .ok args
  | (key, param) :: rest =>
    match validateStep key param args with
    | .error e => .error e
    | .ok args' => validateParams rest args'

/-- The wrapped handler produced by `createTool`: run the validation loop
(a thrown validation error is an `Error` instance carrying the message),
then call the user-supplied handler on the possibly-defaulted arguments. -/
def wrappedHandler (parameters : List (String × ParameterDefinition))
    (handler : ToolHandler) : ToolHandler := fun params context =>
  match validateParams parameters params with
  | .error msg => .error (.errObj msg)
  | .ok params' => handler params' context

/-- `createTool(options)`: reject a name that fails
`/^[a-z][a-z0-9_]*$/` with the naming-convention error (`Except.error`
models the `throw` at construction time); otherwise return the tool whose
handler is the validation-wrapped handler. -/
def createTool (name description : String)
    (parameters : List (String × ParameterDefinition))
    (handler : ToolHandler) : Except String Tool :=
  if validToolName name then
    .ok { definition := ⟨name, description, parameters⟩,
          handler := wrappedHandler parameters handler }
  else
    .error ("Invalid tool name \x22" ++ name ++
      "\x22. Must start with lowercase letter and contain only lowercase letters, numbers, and underscores.")

/-!
## `ToolRegistry` (`src/tools/registry.ts`)
-/

/-- The registry's mutable state: the global name → Tool map and the
per-bot name → Tool maps. -/
structure RegistryState where
  globalTools : List (String × Tool) := []
  botTools : List (String × List (String × Tool)) := []

/-- `register(tool)`: insert into the global map (overwriting emits only a
console warning, which has no effect on the state). -/
def RegistryState.register (st : RegistryState) (tool : Tool) :
    RegistryState :=
  { st with globalTools := mapSet st.globalTools tool.definition.name tool }

/-- `registerForBot(botId, tool)`: insert into that bot's map, creating the
map when absent. -/
def RegistryState.registerForBot (st : RegistryState) (botId : String)
    (tool : Tool) : RegistryState :=
  let botToolMap := (mapGet st.botTools botId).getD []
  { st with botTools :=
      mapSet st.botTools botId (mapSet botToolMap tool.definition.name tool) }

/-- `get(toolName, botId?)`: when `botId` is given *and truthy* (JS
`if (botId)` — the empty string is falsy), check that bot's map first;
otherwise, and on a miss, fall back to the global map. -/
def RegistryState.get (st : RegistryState) (toolName : String)
    (botId : Option String) : Option Tool :=
  if jsTruthyStr botId then
    match botId with
    | some b =>
      match mapGet st.botTools b with
      | some botToolMap =>
        match mapGet botToolMap toolName with
        | some tool => some tool
        | none => mapGet st.globalTools toolName
      | none => mapGet st.globalTools toolName
    | none => mapGet st.globalTools toolName
  else
    mapGet st.globalTools toolName

/-- `execute(request, context)` (`registry.ts` lines 246–271): resolve the
tool scoped to `context.botId`; absent → not-found result; otherwise run the
handler inside `try`, converting a thrown failure into the `error` string.
The return type being `ToolCallResult` (not `Except`) is the embedding of
"never throws". -/
def RegistryState.execute (st : RegistryState) (request : ToolCallRequest)
    (context : ToolContext) : ToolCallResult :=
  match st.get request.name (some context.botId) with
  | none =>
    { name := request.name, result := .null,
      error := some ("Tool not found: " ++ request.name) }
  | some tool =>
    match tool.handler request.arguments context with
    | .ok result => { name := request.name, result := result, error := none }
    | .error e =>
      { name := request.name, result := .null, error := some e.toMessage }

/-- `executeMany(requests, context)`:
`Promise.all(requests.map((req) => this.execute(req, context)))` — every
request executed, results in input order. -/
def RegistryState.executeMany (st : RegistryState)
    (requests : List ToolCallRequest) (context : ToolContext) :
    List ToolCallResult :=
  requests.map (fun req => st.execute req context)

/-!
## LLM Router dispatch (`src/engine/llm-router.ts`, lines 47–110 and 655–666)
-/

/-- `DEFAULT_VERTEX_MODEL`. -/
def DEFAULT_VERTEX_MODEL : String := "gemini-1.5-flash"

/-- `DEFAULT_OPENAI_MODEL`. -/
def DEFAULT_OPENAI_MODEL : String := "gpt-4o-mini"

/-- `DEFAULT_ANTHROPIC_MODEL`. -/
def DEFAULT_ANTHROPIC_MODEL : String := "claude-3-haiku-20240307"

/-- `LLMConfig`.  `provider` is typed `LLMProvider` in TS but at runtime is
an arbitrary string, possibly undefined — the claims quantify over exactly
that, so it is modelled as `Option String`. -/
structure LLMConfig where
  provider : Option String
  model : Option String := none
  apiKey : Option String := none
  temperature : Option Int := none
  maxTokens : Option Nat := none

/-- Which provider adapter a dispatch selects. -/
inductive AdapterChoice where
  | vertex
  | openai
  | anthropic
deriving DecidableEq

/-- The dispatch of `chat(message, config, options)` (lines 71–88):
`const { provider = 'vertex' } = config` (the default applies only when the
field is undefined), then a `switch` whose `default` branch throws
`Unknown LLM provider: <provider>`. -/
def chatDispatch (config : LLMConfig) : Except String AdapterChoice :=
  let provider := config.provider.getD "vertex"
  match provider with
  | "vertex" => .ok .vertex
  | "openai" => .ok .openai
  | "anthropic" => .ok .anthropic
  | other => .error ("Unknown LLM provider: " ++ other)

/-- The identical dispatch of `chatStream` (lines 93–110). -/
def chatStreamDispatch (config : LLMConfig) : Except String AdapterChoice :=
  let provider := config.provider.getD "vertex"
  match provider with
  | "vertex" => .ok .vertex
  | "openai" => .ok .openai
  | "anthropic" => .ok .anthropic
  | other => .error ("Unknown LLM provider: " ++ other)

/-- `getDefaultConfig(provider)` (lines 655–666).  The TS `switch` has a
`default` branch returning the Vertex configuration, so the function is
total over arbitrary provider strings. -/
def getDefaultConfig (provider : String) : LLMConfig :=
  match provider with
  | "vertex" => { provider := some "vertex", model := some DEFAULT_VERTEX_MODEL }
  | "openai" => { provider := some "openai", model := some DEFAULT_OPENAI_MODEL }
  | "anthropic" =>
    { provider := some "anthropic", model := some DEFAULT_ANTHROPIC_MODEL }
  | _ => { provider := some "vertex", model := some DEFAULT_VERTEX_MODEL }

/-!
## Provider adapters — tool round trip (`llm-router.ts`)

The adapters are network clients; the embedded fragment is everything an
adapter computes between and around its (at most two) provider round
trips.  The provider's first response is a parameter (`resp1`), and the
second round trip is a parameter `send2` mapping the second request the
adapter constructs to the provider's second response, so the theorems can
speak about the second request itself.  Transport plumbing (fetch headers,
model / temperature fields of the request body, HTTP error propagation) is
outside the embedded fragment.
-/

/-- A chat turn in the canonical history (`ChatMessage`). -/
structure ChatMessage where
  role : String
  content : String

/-- The canonical result (`ChatResult`): final text, plus the tool-call
trace when a tool round trip happened. -/
structure ChatResult where
  content : String
  toolCalls : Option (List ToolCallRequest) := none
  toolResults : Option (List ToolCallResult) := none

/-- `tr.error || tr.result` — the JS logical-or the adapters apply to a
`ToolCallResult` before sending it back to the provider: the error string
when it is present *and truthy* (non-empty), otherwise the result value. -/
def jsOrErrorResult (tr : ToolCallResult) : JsValue :=
  match tr.error with
  | some e => if e = "" then tr.result else .str e
  | none => tr.result

/-- Modelled from the spec: `result.error ?? result.result` — the
nullish-coalescing formula §4.3 step 4 prescribes for the tool-result
payload (the error string whenever the `error` field is present, even when
empty; the result value only when `error` is absent). -/
def specNullishErrorResult (tr : ToolCallResult) : JsValue :=
  match tr.error with
  | some e => .str e
  | none => tr.result

/-!
### Vertex adapter (`chatWithVertex`, lines 116–197)
-/

/-- A part of a Vertex content turn: a text part or a `functionCall` part
(whose `args` may be absent). -/
inductive VertexPart where
  | text : String → VertexPart
  | functionCall : String → Option Args → VertexPart

/-- A Vertex response: the candidates' `content.parts` lists (a missing
`content`/`parts` is modelled as the empty list). -/
structure VertexResponse where
  candidates : List (List VertexPart)

/-- A `functionResponse` part of the second Vertex request:
`{ functionResponse: { name, response: { result } } }`.  The carried value
is a raw `JsValue`, not a JSON string. -/
structure VertexFunctionResponsePart where
  name : String
  responseResult : JsValue

/-- One entry of the effective content list of a Vertex request: a
role-tagged turn of parts, or the user turn of `functionResponse` parts
sent by the second `chat.sendMessage(toolResponseParts)`. -/
inductive VertexContent where
  | turn : String → List VertexPart → VertexContent
  | functionResponses : List VertexFunctionResponsePart → VertexContent

/-- The history the Vertex adapter builds (lines 137–142): system entries
filtered out, `assistant` mapped to `model`, each content a single text
part. -/
def vertexHistory (history : List ChatMessage) : List VertexContent :=
  (history.filter (fun m => m.role ≠ "system")).map fun m =>
    .turn (if m.role = "assistant" then "model" else "user") [.text m.content]

/-- `candidate.content?.parts?.filter((p) => 'functionCall' in p).map(...)`:
each function-call part becomes a canonical `ToolCallRequest`
(`functionCall.args || {}` — absent args become the empty bag; a JS object,
even empty, is truthy, so `|| {}` fires only on absent args). -/
def vertexFunctionCalls (parts : List VertexPart) : List ToolCallRequest :=
  parts.filterMap fun p =>
    match p with
    | .functionCall n a => some ⟨n, a.getD []⟩
    | .text _ => none

/-- First text of the first candidate's first part
(`candidates?.[0]?.content?.parts?.[0]`, then `'text' in part ? .text : ''`,
then `|| ''`). -/
def vertexFirstPartText (resp : VertexResponse) : String :=
  match resp.candidates.head? with
  | some (VertexPart.text t :: _) => t
  | _ => ""

/-- Text of the first *text* part of the first candidate
(`parts?.find((p) => 'text' in p)`), used by the no-tool branch. -/
def vertexFindText (parts : List VertexPart) : String :=
  match parts.find? (fun p => match p with | .text _ => true | _ => false) with
  | some (.text t) => t
  | _ => ""

/-- What `chatWithVertex` produces: the canonical result, plus (when a tool
round trip happened) the effective content list of the second request —
the chat session's accumulated turns (history, the user message, the model
turn carrying the tool-call blocks) followed by the `functionResponse`
parts passed to the second `sendMessage`. -/
structure VertexOutcome where
  result : ChatResult
  secondRequest : Option (List VertexContent)

/-- `chatWithVertex` from the first response onward (lines 153–197): no
candidate → throw `No response generated`; tool-call parts present *and*
`toolContext` supplied → execute them through the registry, send the
`functionResponse` parts (each carrying the raw value `tr.error ||
tr.result`) on the same chat session, and take the second response's first
part's text; otherwise return the first candidate's first text part. -/
def chatWithVertex (st : RegistryState) (message : String)
    (history : List ChatMessage) (toolContext : Option ToolContext)
    (resp1 : VertexResponse) (send2 : List VertexContent → VertexResponse) :
    Except String VertexOutcome :=
  match resp1.candidates.head? with
  | none => .error "No response generated"
  | some parts1 =>
    let functionCalls := vertexFunctionCalls parts1
    match toolContext with
    | some ctx =>
      if functionCalls.length > 0 then
        let toolResults := st.executeMany functionCalls ctx
        let toolResponseParts : List VertexFunctionResponsePart :=
          toolResults.map fun tr => ⟨tr.name, jsOrErrorResult tr⟩
        let secondContents :=
          vertexHistory history ++
            [.turn "user" [.text message], .turn "model" parts1,
             .functionResponses toolResponseParts]
        let resp2 := send2 secondContents
        .ok { result :=
                { content := vertexFirstPartText resp2,
                  toolCalls := some functionCalls,
                  toolResults := some toolResults },
              secondRequest := some secondContents }
      else
        .ok { result := { content := vertexFindText parts1 },
              secondRequest := none }
    | none =>
      .ok { result := { content := vertexFindText parts1 },
            secondRequest := none }

/-!
### OpenAI adapter (`chatWithOpenAI`, lines 243–368)
-/

/-- One entry of `choice.message.tool_calls`: `id` plus the function name
and its (already JSON-parsed) arguments — the adapter computes
`JSON.parse(tc.function.arguments || '{}')`; the parse itself is outside
the embedded fragment, so the block carries the parsed bag. -/
structure OpenAIToolCallBlock where
  id : String
  fnName : String
  fnArguments : Args

/-- `choice.message` of an OpenAI response: optional text `content` and
optional `tool_calls` list. -/
structure OpenAIChoiceMessage where
  content : Option String := none
  tool_calls : Option (List OpenAIToolCallBlock) := none

/-- An OpenAI response: its `choices`, each reduced to its `message`. -/
structure OpenAIResponse where
  choices : List OpenAIChoiceMessage

/-- A message of an OpenAI request: a plain `{role, content}` entry, the
response message appended verbatim (`choice.message`), or a
`{role: 'tool', tool_call_id, content}` tool-result message. -/
inductive OpenAIReqMessage where
  | plain : String → String → OpenAIReqMessage
  | fromResponse : OpenAIChoiceMessage → OpenAIReqMessage
  | toolMsg : String → String → OpenAIReqMessage

/-- The base message list (lines 255–262): optional system message, the
history verbatim (system entries included — OpenAI accepts them), then the
user message. -/
def openaiBaseMessages (message : String) (systemPrompt : Option String)
    (history : List ChatMessage) : List OpenAIReqMessage :=
  (match systemPrompt with
   | some sp => [OpenAIReqMessage.plain "system" sp]
   | none => []) ++
  history.map (fun m => OpenAIReqMessage.plain m.role m.content) ++
  [OpenAIReqMessage.plain "user" message]

/-- `data.choices?.[0]?.message?.content || ''` — the text of a response's
first choice. -/
def openaiFirstContent (resp : OpenAIResponse) : String :=
  match resp.choices.head? with
  | some m => m.content.getD ""
  | none => ""

/-- What `chatWithOpenAI` produces: the canonical result plus, when a tool
round trip happened, the message list of the second request. -/
structure OpenAIOutcome where
  result : ChatResult
  secondRequest : Option (List OpenAIReqMessage)

/-- `chatWithOpenAI` from the first response onward (lines 316–367): no
choice → throw; `choice.message?.tool_calls` present (a JS array, even
empty, is truthy) *and* `toolContext` supplied → convert the blocks to
canonical requests, execute them, and send
`[...messages, choice.message, ...toolMessages]` where the i-th tool
message carries `JSON.stringify(tr.error || tr.result)` under the i-th
block's `id`; the second response's first choice's text (`|| ''`) is the
final content.  Otherwise the first choice's text (`|| ''`). -/
def chatWithOpenAI (st : RegistryState) (message : String)
    (apiKey : Option String) (systemPrompt : Option String)
    (history : List ChatMessage) (toolContext : Option ToolContext)
    (resp1 : OpenAIResponse)
    (send2 : List OpenAIReqMessage → OpenAIResponse) :
    Except String OpenAIOutcome :=
  if jsTruthyStr apiKey = false then
    .error "OpenAI API key is required"
  else
    match resp1.choices.head? with
    | none => .error "No response from OpenAI"
    | some choiceMsg =>
      let messages := openaiBaseMessages message systemPrompt history
      match choiceMsg.tool_calls, toolContext with
      | some blocks, some ctx =>
        let toolCalls : List ToolCallRequest :=
          blocks.map fun tc => ⟨tc.fnName, tc.fnArguments⟩
        let toolResults := st.executeMany toolCalls ctx
        let toolMessages : List OpenAIReqMessage :=
          (toolResults.zip blocks).map fun (tr, tc) =>
            .toolMsg tc.id (jsonStringify (jsOrErrorResult tr))
        let secondMessages :=
          messages ++ [.fromResponse choiceMsg] ++ toolMessages
        let finalData := send2 secondMessages
        .ok { result :=
                { content := openaiFirstContent finalData,
                  toolCalls := some toolCalls,
                  toolResults := some toolResults },
              secondRequest := some secondMessages }
      | _, _ =>
        .ok { result := { content := choiceMsg.content.getD "" },
              secondRequest := none }

/-!
### Anthropic adapter (`chatWithAnthropic`, lines 448–571)
-/

/-- A content block of an Anthropic response: a text block, a `tool_use`
block (`id`, `name`, `input` — possibly absent), or another block type. -/
inductive AnthropicBlock where
  | text : String → AnthropicBlock
  | toolUse : String → String → Option Args → AnthropicBlock
  | other : AnthropicBlock

/-- An Anthropic response: its `content` block list. -/
structure AnthropicResponse where
  content : List AnthropicBlock

/-- One `tool_result` item of the second request's user turn:
`{ type: 'tool_result', tool_use_id, content }`. -/
structure AnthropicToolResultItem where
  tool_use_id : String
  content : String

/-- A message of an Anthropic request: a plain `{role, content}` entry, the
assistant turn `{role: 'assistant', content: data.content}` echoing the
first response's blocks, or the user turn carrying the `tool_result`
items. -/
inductive AnthropicReqMessage where
  | plain : String → String → AnthropicReqMessage
  | assistantBlocks : List AnthropicBlock → AnthropicReqMessage
  | toolResultsTurn : List AnthropicToolResultItem → AnthropicReqMessage

/-- The base message list (lines 460–466): history with system entries
filtered out, then the user message (`systemPrompt` travels in the separate
`system` body field). -/
def anthropicBaseMessages (message : String) (history : List ChatMessage) :
    List AnthropicReqMessage :=
  (history.filter (fun m => m.role ≠ "system")).map
    (fun m => AnthropicReqMessage.plain m.role m.content) ++
  [AnthropicReqMessage.plain "user" message]

/-- `b.type === 'tool_use'`. -/
def isToolUseBlock (b : AnthropicBlock) : Bool :=
  match b with
  | .toolUse _ _ _ => true
  | _ => false

/-- The first text block's text (`content?.find((b) => b.type === 'text')`,
then `?.text || ''`). -/
def anthropicFindText (blocks : List AnthropicBlock) : String :=
  match blocks.find? (fun b => match b with | .text _ => true | _ => false) with
  | some (.text t) => t
  | _ => ""

/-- What `chatWithAnthropic` produces: the canonical result plus, when a
tool round trip happened, the message list of the second request. -/
structure AnthropicOutcome where
  result : ChatResult
  secondRequest : Option (List AnthropicReqMessage)

/-- `chatWithAnthropic` from the first response onward (lines 522–570):
filter the `tool_use` blocks; if at least one *and* `toolContext` supplied
→ convert each block (`b.input || {}`) to a canonical request, execute,
and send `[...messages, {role: 'assistant', content: data.content},
{role: 'user', content: toolResultMessages}]` where the i-th item carries
`JSON.stringify(toolResults[i].error || toolResults[i].result)` under the
i-th block's `id`; the second response's first text block (`|| ''`) is the
final content.  Otherwise the first response's first text block
(`|| ''`). -/
def chatWithAnthropic (st : RegistryState) (message : String)
    (apiKey : Option String) (history : List ChatMessage)
    (toolContext : Option ToolContext) (resp1 : AnthropicResponse)
    (send2 : List AnthropicReqMessage → AnthropicResponse) :
    Except String AnthropicOutcome :=
  if jsTruthyStr apiKey = false then
    .error "Anthropic API key is required"
  else
    let messages := anthropicBaseMessages message history
    let toolUseBlocks := resp1.content.filter isToolUseBlock
    match toolContext with
    | some ctx =>
      if toolUseBlocks.length > 0 then
      let toolCalls : List ToolCallRequest :=
        toolUseBlocks.filterMap fun b =>
          match b with
          | .toolUse _ n inp => some ⟨n, inp.getD []⟩
          | _ => none
      let toolResults := st.executeMany toolCalls ctx
      let toolResultMessages : List AnthropicToolResultItem :=
        (toolUseBlocks.zip toolResults).filterMap fun (b, tr) =>
          match b with
          | .toolUse i _ _ =>
            some ⟨i, jsonStringify (jsOrErrorResult tr)⟩
          | _ => none
      let secondMessages :=
        messages ++
          [.assistantBlocks resp1.content, .toolResultsTurn toolResultMessages]
      let finalData := send2 secondMessages
      .ok { result :=
              { content := anthropicFindText finalData.content,
                toolCalls := some toolCalls,
                toolResults := some toolResults },
            secondRequest := some secondMessages }
      else
        .ok { result := { content := anthropicFindText resp1.content },
              secondRequest := none }
    | none =>
      .ok { result := { content := anthropicFindText resp1.content },
            secondRequest := none }

/-!
### Streaming adapters (`chatWithVertexStream`, lines 199–237;
`chatWithOpenAIStream`, lines 370–442; `chatWithAnthropicStream`, lines
573–650)

A streaming adapter is modelled as a function from the sequence of raw
chunks the network delivers to the pair (fragments yielded, in order;
final `ChatResult`).  For the two SSE providers, the JSON parsing of one
`data:` record and the field access selecting the text delta
(`choices[0].delta.content`, resp. `delta.text` guarded by
`type === 'content_block_delta'`) are abstracted as a parameter
`extract`; a record whose parse throws (the empty `catch` branch) or that
lacks the field is `extract = none`.  The claims quantify over every
extractor, so nothing is lost.
-/

/-- `if (text) { fullContent += text; yield text }` — the single state
update all three streaming loops perform: a truthy (non-empty) text is both
yielded and appended to the accumulated content; a falsy one is skipped. -/
def streamPush (acc : List String × String) (t : String) :
    List String × String :=
  if t = "" then acc else (acc.1 ++ [t], acc.2 ++ t)

/-- `chatWithVertexStream`'s consumption loop: per chunk, the first part of
the first candidate (`chunk.candidates?.[0]?.content?.parts?.[0]`), its
text when it is a text part, pushed when truthy; the generator's return
value is `{ content: fullContent }`. -/
def chatWithVertexStream (chunks : List VertexResponse) :
    List String × ChatResult :=
  let acc := chunks.foldl
    (fun acc chunk => streamPush acc (vertexFirstPartText chunk)) ([], "")
  (acc.1, { content := acc.2 })

/-- One SSE line of the OpenAI stream (lines 425–438): only lines starting
with `data: ` and different from the `data: [DONE]` sentinel are parsed;
the extracted delta content is pushed when truthy. -/
def openaiProcessLine (extract : String → Option String)
    (acc : List String × String) (line : String) : List String × String :=
  if line.startsWith "data: " && line ≠ "data: [DONE]" then
    match extract (line.drop 6) with
    | some content => streamPush acc content
    | none => acc
  else acc

/-- One SSE line of the Anthropic stream (lines 634–645): every line
starting with `data: ` is parsed; the `content_block_delta` text is pushed
when truthy. -/
def anthropicProcessLine (extract : String → Option String)
    (acc : List String × String) (line : String) : List String × String :=
  if line.startsWith "data: " then
    match extract (line.drop 6) with
    | some t => streamPush acc t
    | none => acc
  else acc

/-- The buffered record-splitting both SSE readers share (lines 417–423 /
626–632): append the decoded chunk to the buffer, split on newlines, keep
the last (possibly incomplete) line as the new buffer, process the rest. -/
def sseConsumeChunk (processLine : (List String × String) → String →
      (List String × String))
    (state : String × (List String × String)) (chunk : String) :
    String × (List String × String) :=
  let s := state.1 ++ chunk
  let lines := s.splitOn "\n"
  (lines.getLastD "", (lines.dropLast).foldl processLine state.2)

/-- `chatWithOpenAIStream`'s consumption loop over the decoded chunks (any
buffer remaining when the stream ends is discarded, as in the source). -/
def chatWithOpenAIStream (extract : String → Option String)
    (chunks : List String) : List String × ChatResult :=
  let st := chunks.foldl (sseConsumeChunk (openaiProcessLine extract))
    ("", ([], ""))
  (st.2.1, { content := st.2.2 })

/-- `chatWithAnthropicStream`'s consumption loop over the decoded chunks. -/
def chatWithAnthropicStream (extract : String → Option String)
    (chunks : List String) : List String × ChatResult :=
  let st := chunks.foldl (sseConsumeChunk (anthropicProcessLine extract))
    ("", ([], ""))
  (st.2.1, { content := st.2.2 })

/-!
## Helper predicates and lemmas
-/

/-- Every fragment of the list is non-empty. -/
def allNonEmpty (ys : List String) : Bool := ys.all (fun y => y ≠ "")

/-- Concatenation of a fragment list, in order. -/
def joinAll : List String → String
  | [] => ""
  | s :: r => s ++ joinAll r

/-- `Except.isOk` as a plain boolean. -/
def isOkB {ε α : Type} (e : Except ε α) : Bool :=
  match e with
  | .ok _ => true
  | .error _ => false

/-- A property preserved by every step of a left fold holds of the fold. -/
theorem foldlPreserve {β α : Type} (P : β → Prop) (step : β → α → β)
    (hstep : ∀ b a, P b → P (step b a)) :
    ∀ (l : List α) (init : β), P init → P (l.foldl step init) := by
  intro l
  induction l with
  | nil => intro init h; exact h
  | cons x xs ih => intro init h; exact ih (step init x) (hstep init x h)

/-- The invariant of a streaming accumulator: every yielded fragment is
non-empty and the accumulated content is their concatenation in order. -/
def StreamInv (acc : List String × String) : Prop :=
  allNonEmpty acc.1 = true ∧ joinAll acc.1 = acc.2

theorem joinAll_append (a b : List String) :
    joinAll (a ++ b) = joinAll a ++ joinAll b := by
  induction a with
  | nil => simp [joinAll]
  | cons x xs ih => simp [joinAll, ih, String.append_assoc]

theorem streamPush_inv (acc : List String × String) (t : String)
    (h : StreamInv acc) : StreamInv (streamPush acc t) := by
  unfold streamPush
  by_cases ht : t = ""
  · simpa [ht] using h
  · obtain ⟨h1, h2⟩ := h
    simp only [if_neg ht]
    constructor
    · simp only [allNonEmpty] at h1 ⊢
      simp only [List.all_append, List.all_cons, List.all_nil, Bool.and_true,
        Bool.and_eq_true, h1, decide_eq_true_eq]
      exact ⟨trivial, ht⟩
    · simp [joinAll_append, joinAll, h2]

theorem openaiProcessLine_inv (extract : String → Option String)
    (acc : List String × String) (line : String) (h : StreamInv acc) :
    StreamInv (openaiProcessLine extract acc line) := by
  unfold openaiProcessLine
  split
  · match extract (line.drop 6) with
    | some content => exact streamPush_inv acc content h
    | none => exact h
  · exact h

theorem anthropicProcessLine_inv (extract : String → Option String)
    (acc : List String × String) (line : String) (h : StreamInv acc) :
    StreamInv (anthropicProcessLine extract acc line) := by
  unfold anthropicProcessLine
  split
  · match extract (line.drop 6) with
    | some t => exact streamPush_inv acc t h
    | none => exact h
  · exact h

theorem sseConsumeChunk_inv
    (processLine : (List String × String) → String → (List String × String))
    (hline : ∀ acc line, StreamInv acc → StreamInv (processLine acc line))
    (state : String × (List String × String)) (chunk : String)
    (h : StreamInv state.2) :
    StreamInv (sseConsumeChunk processLine state chunk).2 := by
  unfold sseConsumeChunk
  exact foldlPreserve StreamInv processLine hline _ state.2 h

theorem mapGet_mapSet_ne {α : Type} (m : List (String × α)) (j k : String)
    (v : α) (h : j ≠ k) : mapGet (mapSet m j v) k = mapGet m k := by
  induction m with
  | nil => simp [mapGet, mapSet, h]
  | cons hd tl ih =>
    obtain ⟨k', v'⟩ := hd
    by_cases hk : k' = j
    · simp [mapGet, mapSet, hk, h]
    · simp only [mapSet, if_neg hk]
      by_cases hk2 : k' = k
      · simp [mapGet, hk2]
      · simp [mapGet, hk2, ih]

/-- Default injection for a declared parameter named `j` does not change
the value of any other argument key. -/
theorem applyDefault_preserves (j k : String) (q : ParameterDefinition)
    (args : Args) (hjk : j ≠ k) :
    mapGet (applyDefault j q args) k = mapGet args k := by
  unfold applyDefault
  match mapGet args j, q.default with
  | none, some d => exact mapGet_mapSet_ne args j k d hjk
  | none, none => rfl
  | some _, some _ => rfl
  | some _, none => rfl

/-- A successful enum check returns the argument bag unchanged. -/
theorem checkEnum_ok (key : String) (param : ParameterDefinition)
    (args args' : Args) (h : checkEnum key param args = .ok args') :
    args' = args := by
  unfold checkEnum at h
  split at h
  · split at h
    · split at h
      · injection h with h; exact h.symm
      · exact absurd h (by simp)
    · injection h with h; exact h.symm
  · injection h with h; exact h.symm

/-- A validation step for a declared parameter named `j` does not change
the value of any other argument key when it succeeds. -/
theorem validateStep_ok_preserves (j k : String) (q : ParameterDefinition)
    (args args' : Args) (hjk : j ≠ k)
    (h : validateStep j q args = .ok args') :
    mapGet args' k = mapGet args k := by
  unfold validateStep at h
  split at h
  · exact absurd h (by simp)
  · rw [checkEnum_ok j q _ args' h]
    exact applyDefault_preserves j k q args hjk

/-- A successful validation pass over parameters whose names avoid `k`
leaves the value at key `k` unchanged. -/
theorem validateParams_ok_preserves (l : List (String × ParameterDefinition))
    (k : String) (args args' : Args) (hk : k ∉ l.map Prod.fst)
    (h : validateParams l args = .ok args') :
    mapGet args' k = mapGet args k := by
  induction l generalizing args with
  | nil =>
    simp only [validateParams] at h
    injection h with h
    rw [h]
  | cons hd tl ih =>
    obtain ⟨j, q⟩ := hd
    simp only [List.map_cons, List.mem_cons] at hk
    push_neg at hk
    simp only [validateParams] at h
    split at h
    · exact absurd h (by simp)
    · rename_i args1 hstep
      calc mapGet args' k = mapGet args1 k := ih args1 hk.2 h
        _ = mapGet args k :=
          validateStep_ok_preserves j k q args args1 (fun e => hk.1 e.symm) hstep

/-- `validateParams` over a concatenation: the second block runs only when
the first succeeds, on the arguments the first produced. -/
theorem validateParams_append (l1 l2 : List (String × ParameterDefinition))
    (args : Args) :
    validateParams (l1 ++ l2) args =
      match validateParams l1 args with
      | .error e => .error e
      | .ok args' => validateParams l2 args' := by
  induction l1 generalizing args with
  | nil => simp [validateParams]
  | cons hd tl ih =>
    obtain ⟨j, q⟩ := hd
    simp only [List.cons_append, validateParams]
    split
    · rfl
    · exact ih _

/-- A required parameter whose value is missing (strictly absent) makes the
whole validation fail, whatever else the spec declares (in particular a
declared `default` for it never substitutes: the required check precedes
default injection). -/
theorem validateParams_required_missing
    (pre post : List (String × ParameterDefinition)) (k : String)
    (p : ParameterDefinition) (args : Args)
    (hk : k ∉ pre.map Prod.fst) (hreq : p.required = true)
    (hmiss : mapGet args k = none) :
    (∃ e, validateParams (pre ++ (k, p) :: post) args = .error e) ∧
    (∀ args2, validateParams pre args = .ok args2 →
      validateParams (pre ++ (k, p) :: post) args =
        .error ("Missing required parameter: " ++ k)) := by
  have hstep : ∀ args2 : Args, mapGet args2 k = none →
      validateStep k p args2 = .error ("Missing required parameter: " ++ k) := by
    intro args2 h2
    unfold validateStep
    rw [h2, hreq]
    simp [isMissingValue]
  have hmain : ∀ args2, validateParams pre args = .ok args2 →
      validateParams (pre ++ (k, p) :: post) args =
        .error ("Missing required parameter: " ++ k) := by
    intro args2 hok
    rw [validateParams_append, hok]
    have h2 : mapGet args2 k = none := by
      rw [validateParams_ok_preserves pre k args args2 hk hok, hmiss]
    simp only [validateParams, hstep args2 h2]
  refine ⟨?_, hmain⟩
  rw [validateParams_append]
  match hpre : validateParams pre args with
  | .error e => exact ⟨e, rfl⟩
  | .ok args2 =>
    have := hmain args2 hpre
    rw [validateParams_append, hpre] at this
    exact ⟨_, this⟩

/-- A present argument disables default injection. -/
theorem applyDefault_present (key : String) (param : ParameterDefinition)
    (args : Args) (v : JsValue) (h : mapGet args key = some v) :
    applyDefault key param args = args := by
  unfold applyDefault
  rw [h]

/-- A present value outside a declared enum makes the whole validation
fail; when the earlier parameters validated cleanly and the value survives
the required check, the error is the invalid-value message naming the
value and the allowed set. -/
theorem validateParams_enum_invalid
    (pre post : List (String × ParameterDefinition)) (k : String)
    (p : ParameterDefinition) (args : Args) (v : JsValue)
    (allowed : List String) (hk : k ∉ pre.map Prod.fst)
    (henum : p.enum = some allowed) (hv : mapGet args k = some v)
    (hinc : enumIncludes allowed v = false) :
    (∃ e, validateParams (pre ++ (k, p) :: post) args = .error e) ∧
    (∀ args2, validateParams pre args = .ok args2 →
      p.required = false ∨ v ≠ JsValue.null →
      validateParams (pre ++ (k, p) :: post) args =
        .error ("Invalid value for " ++ k ++ ": \x22" ++ jsToString v ++
          "\x22. Must be one of: " ++ String.intercalate ", " allowed)) := by
  have hstep_err : ∀ args2 : Args, mapGet args2 k = some v →
      ∃ e, validateStep k p args2 = .error e := by
    intro args2 h2
    unfold validateStep
    by_cases hg : (p.required && isMissingValue (mapGet args2 k)) = true
    · rw [if_pos hg]; exact ⟨_, rfl⟩
    · rw [if_neg hg, applyDefault_present k p args2 v h2]
      unfold checkEnum
      rw [henum, h2]
      exact ⟨"Invalid value for " ++ k ++ ": \x22" ++ jsToString v ++
        "\x22. Must be one of: " ++ String.intercalate ", " allowed,
        by simp [hinc]⟩
  have hstep_name : ∀ args2 : Args, mapGet args2 k = some v →
      (p.required = false ∨ v ≠ JsValue.null) →
      validateStep k p args2 =
        .error ("Invalid value for " ++ k ++ ": \x22" ++ jsToString v ++
          "\x22. Must be one of: " ++ String.intercalate ", " allowed) := by
    intro args2 h2 hcase
    have hg : (p.required && isMissingValue (mapGet args2 k)) = false := by
      rcases hcase with hreq | hnull
      · rw [hreq]; rfl
      · rw [h2]
        have hmv : isMissingValue (some v) = false := by
          cases v
          case null => exact absurd rfl hnull
          all_goals rfl
        rw [hmv, Bool.and_false]
    unfold validateStep
    rw [if_neg (by simp [hg]), applyDefault_present k p args2 v h2]
    unfold checkEnum
    rw [henum, h2]
    simp [hinc]
  have hmain : ∀ args2, validateParams pre args = .ok args2 →
      (p.required = false ∨ v ≠ JsValue.null) →
      validateParams (pre ++ (k, p) :: post) args =
        .error ("Invalid value for " ++ k ++ ": \x22" ++ jsToString v ++
          "\x22. Must be one of: " ++ String.intercalate ", " allowed) := by
    intro args2 hok hcase
    rw [validateParams_append, hok]
    have h2 : mapGet args2 k = some v := by
      rw [validateParams_ok_preserves pre k args args2 hk hok, hv]
    simp only [validateParams, hstep_name args2 h2 hcase]
  refine ⟨?_, hmain⟩
  rw [validateParams_append]
  match hpre : validateParams pre args with
  | .error e => exact ⟨e, rfl⟩
  | .ok args2 =>
    have h2 : mapGet args2 k = some v := by
      rw [validateParams_ok_preserves pre k args args2 hk hpre, hv]
    obtain ⟨e, he⟩ := hstep_err args2 h2
    exact ⟨e, by simp only [validateParams, he]⟩

/-!
## Concrete fixtures used by witnesses and counterexamples
-/

/-- A concrete execution context. -/
def ctx0 : ToolContext := ⟨"bot-1", "user-1", none⟩

/-- A tool whose handler succeeds with the string `done`. -/
def toolEcho : Tool :=
  ⟨⟨"echo", "always succeeds", []⟩,
   wrappedHandler [] (fun _ _ => .ok (.str "done"))⟩

/-- A tool whose handler throws `new Error('kaboom')`. -/
def toolBoom : Tool :=
  ⟨⟨"boom", "always throws", []⟩,
   wrappedHandler [] (fun _ _ => .error (.errObj "kaboom"))⟩

/-- A registry holding the two tools above globally. -/
def st0 : RegistryState :=
  { globalTools := [("echo", toolEcho), ("boom", toolBoom)] }

/-!
## Claim theorems
-/

/-- C1: for every `ToolCallRequest` and `ToolContext`,
`toolRegistry.execute` returns a `ToolCallResult` and never throws (its
embedding is a total function into `ToolCallResult`): if no tool resolves
under the context's agent scope the result is the not-found message
`Tool not found: <name>` with `result` null; if the resolved handler throws,
the thrown failure is caught and converted into the result's `error` string
(`message` of an `Error`, `Unknown error` otherwise); if the handler
succeeds, its return value is wrapped in `result`. -/
theorem execute_total_cases (st : RegistryState) (request : ToolCallRequest)
    (context : ToolContext) :
    (st.get request.name (some context.botId) = none →
      st.execute request context =
        ⟨request.name, .null, some ("Tool not found: " ++ request.name)⟩) ∧
    (∀ (tool : Tool) (e : JsThrown),
      st.get request.name (some context.botId) = some tool →
      tool.handler request.arguments context = .error e →
      st.execute request context =
        ⟨request.name, .null, some e.toMessage⟩) ∧
    (∀ (tool : Tool) (v : JsValue),
      st.get request.name (some context.botId) = some tool →
      tool.handler request.arguments context = .ok v →
      st.execute request context = ⟨request.name, v, none⟩) := by
  refine ⟨?_, ?_, ?_⟩
  · intro h
    simp only [RegistryState.execute, h]
  · intro tool e hget hh
    simp only [RegistryState.execute, hget, hh]
  · intro tool v hget hh
    simp only [RegistryState.execute, hget, hh]

/-- Witness for C1: the three cases at concrete inputs — an unregistered
name, a throwing handler, a succeeding handler. -/
theorem execute_total_cases_witness :
    st0.execute ⟨"missing", []⟩ ctx0 =
      ⟨"missing", .null, some "Tool not found: missing"⟩ ∧
    st0.execute ⟨"boom", []⟩ ctx0 = ⟨"boom", .null, some "kaboom"⟩ ∧
    st0.execute ⟨"echo", []⟩ ctx0 = ⟨"echo", .str "done", none⟩ :=
  ⟨(execute_total_cases st0 ⟨"missing", []⟩ ctx0).1 rfl,
   (execute_total_cases st0 ⟨"boom", []⟩ ctx0).2.1 toolBoom (.errObj "kaboom")
     rfl rfl,
   (execute_total_cases st0 ⟨"echo", []⟩ ctx0).2.2 toolEcho (.str "done")
     rfl rfl⟩

/-- C7: `executeMany` returns one result per request, the i-th output
being exactly the execution of the i-th request — results in input order
(completion order is immaterial in `Promise.all`, which preserves index
correspondence), and each entry depends only on its own request, so one
request's failure cannot abort or alter the others. -/
theorem executeMany_pointwise (st : RegistryState)
    (requests : List ToolCallRequest) (context : ToolContext) :
    (st.executeMany requests context).length = requests.length ∧
    ∀ i : Nat, (st.executeMany requests context)[i]? =
      (requests[i]?).map (fun r => st.execute r context) := by
  constructor
  · simp [RegistryState.executeMany]
  · intro i
    simp [RegistryState.executeMany]

/-- C8: `createTool` succeeds exactly when the name matches
`^[a-z][a-z0-9_]*$` and otherwise fails fast, at construction time, with
the naming-convention error (so a malformed tool can never enter the
registry — only constructed `Tool` values can be registered); uppercase
letters, a leading digit, a hyphen and a leading underscore are all
rejected. -/
theorem createTool_name_validation :
    (∀ (name description : String)
        (parameters : List (String × ParameterDefinition))
        (handler : ToolHandler),
      isOkB (createTool name description parameters handler) =
        validToolName name) ∧
    validToolName "get_weather2" = true ∧
    validToolName "Weather" = false ∧
    validToolName "9tool" = false ∧
    validToolName "my-tool" = false ∧
    validToolName "_tool" = false ∧
    (∀ (name description : String)
        (parameters : List (String × ParameterDefinition))
        (handler : ToolHandler),
      validToolName name = false →
      createTool name description parameters handler =
        .error ("Invalid tool name \x22" ++ name ++
          "\x22. Must start with lowercase letter and contain only lowercase letters, numbers, and underscores.")) := by
  refine ⟨?_, by decide, by decide, by decide, by decide, by decide, ?_⟩
  · intro name d ps h
    unfold createTool isOkB
    by_cases hv : validToolName name <;> simp [hv]
  · intro name d ps h hv
    unfold createTool
    rw [hv]
    simp

/-- Witness for C8: the hyphenated name `my-tool` is rejected with the
naming-convention error. -/
theorem createTool_name_validation_witness :
    validToolName "my-tool" = false ∧
    createTool "my-tool" "d" [] (fun _ _ => .ok .null) =
      .error "Invalid tool name \x22my-tool\x22. Must start with lowercase letter and contain only lowercase letters, numbers, and underscores." :=
  ⟨by decide,
   createTool_name_validation.2.2.2.2.2.2 "my-tool" "d" []
     (fun _ _ => .ok .null) (by decide)⟩

/-- A global tool named `t`, recognisable by its description. -/
def toolGlobalT : Tool :=
  ⟨⟨"t", "global", []⟩, wrappedHandler [] (fun _ _ => .ok .null)⟩

/-- An agent-scoped tool named `t`, recognisable by its description. -/
def toolAgentT : Tool :=
  ⟨⟨"t", "agent", []⟩, wrappedHandler [] (fun _ _ => .ok .null)⟩

/-- Global `t` plus agent-scoped `t` under agent `A`. -/
def stPrecedence : RegistryState :=
  (RegistryState.register {} toolGlobalT).registerForBot "A" toolAgentT

/-- Global `t` plus agent-scoped `t` under the empty-string agent id. -/
def stPrecedenceEmpty : RegistryState :=
  (RegistryState.register {} toolGlobalT).registerForBot "" toolAgentT

/-- C6 (amended): for a *non-empty* agent id `A` whose scope holds a tool
named `nm`, `get nm A` returns the agent-scoped tool; for any agent id `B`
whose scope does not hold `nm`, and with no agent id at all, `get` falls
through to the global tool.  (For the empty-string agent id the agent
scope is skipped — see the counterexample.) -/
theorem registry_get_precedence (st : RegistryState) (nm A : String)
    (g a : Tool) (m : List (String × Tool)) (hA : A ≠ "")
    (hg : mapGet st.globalTools nm = some g)
    (hm : mapGet st.botTools A = some m) (ha : mapGet m nm = some a) :
    st.get nm (some A) = some a ∧
    (∀ B : String,
      (∀ mb, mapGet st.botTools B = some mb → mapGet mb nm = none) →
      st.get nm (some B) = some g) ∧
    st.get nm none = some g ∧
    (∀ (st2 : RegistryState) (nm2 : String) (b : Option String),
      mapGet st2.globalTools nm2 = none →
      (∀ (B : String) mb, mapGet st2.botTools B = some mb →
        mapGet mb nm2 = none) →
      st2.get nm2 b = none) := by
  refine ⟨?_, ?_, ?_, ?_⟩
  · simp [RegistryState.get, jsTruthyStr, hA, hm, ha]
  · intro B hB
    by_cases hB0 : B = ""
    · simp [RegistryState.get, jsTruthyStr, hB0, hg]
    · cases hmb : mapGet st.botTools B with
      | none => simp [RegistryState.get, jsTruthyStr, hB0, hmb, hg]
      | some mb =>
        simp [RegistryState.get, jsTruthyStr, hB0, hmb, hB mb hmb, hg]
  · simp [RegistryState.get, jsTruthyStr, hg]
  · intro st2 nm2 b habs hbabs
    cases b with
    | none => simp [RegistryState.get, jsTruthyStr, habs]
    | some B =>
      by_cases hB0 : B = ""
      · simp [RegistryState.get, jsTruthyStr, hB0, habs]
      · cases hmb : mapGet st2.botTools B with
        | none => simp [RegistryState.get, jsTruthyStr, hB0, hmb, habs]
        | some mb =>
          simp [RegistryState.get, jsTruthyStr, hB0, hmb, hbabs B mb hmb, habs]

/-- Witness for C6 (amended): with global `t` and agent-scoped `t` under
agent `A`, lookups under `A`, under another agent `B`, with no agent, and for a name
absent everywhere. -/
theorem registry_get_precedence_witness :
    stPrecedence.get "t" (some "A") = some toolAgentT ∧
    stPrecedence.get "t" (some "B") = some toolGlobalT ∧
    stPrecedence.get "t" none = some toolGlobalT ∧
    stPrecedence.get "nope" (some "A") = none :=
  have h := registry_get_precedence stPrecedence "t" "A" toolGlobalT
    toolAgentT [("t", toolAgentT)] (by decide) rfl rfl rfl
  ⟨h.1, h.2.1 "B" (fun mb hmb => nomatch hmb), h.2.2.1,
   h.2.2.2 stPrecedence "nope" (some "A") rfl
     (fun B mb hmb => by
       by_cases hB : B = "A"
       · subst hB
         rw [show mapGet stPrecedence.botTools "A" = some [("t", toolAgentT)]
           from rfl] at hmb
         injection hmb with hmb
         rw [← hmb]
         rfl
       · exact absurd hmb (by
           rw [show mapGet stPrecedence.botTools B =
             mapGet [("A", [("t", toolAgentT)])] B from rfl]
           intro hx
           simp only [mapGet, if_neg (fun e : "A" = B => hB e.symm)] at hx
           exact Option.noConfusion hx))⟩

/-- Counterexample for C6 as stated: the claim quantifies over every agent
id `A`, but for `A = ""` JS truthiness (`if (botId)`) skips the agent
scope, so `get` returns the *global* tool even though an agent-scoped tool
of the same name is registered under `""`. -/
theorem registry_get_precedence_counterexample :
    ((stPrecedenceEmpty.get "t" (some "")).map
      fun tl => tl.definition.description) = some "global" ∧
    ((mapGet stPrecedenceEmpty.botTools "").map fun mb =>
      (mapGet mb "t").map fun tl => tl.definition.description) =
      some (some "agent") ∧
    ("global" : String) ≠ "agent" :=
  ⟨rfl, rfl, by decide⟩

/-- Destructing a successful `createTool`: the returned tool carries the
given definition and the validation-wrapped handler. -/
theorem createTool_ok_destruct (name description : String)
    (parameters : List (String × ParameterDefinition))
    (handler : ToolHandler) (tool : Tool)
    (h : createTool name description parameters handler = .ok tool) :
    tool.definition = ⟨name, description, parameters⟩ ∧
    tool.handler = wrappedHandler parameters handler := by
  unfold createTool at h
  split at h
  · injection h with h
    rw [← h]
    exact ⟨rfl, rfl⟩
  · exact absurd h (by simp)

/-- When the resolved tool's wrapped handler rejects the arguments, the
`execute` result carries the validation message and a null result. -/
theorem execute_validation_error (st : RegistryState) (ctx : ToolContext)
    (name : String) (tool : Tool)
    (parameters : List (String × ParameterDefinition))
    (handler : ToolHandler) (args : Args) (msg : String)
    (hget : st.get name (some ctx.botId) = some tool)
    (htool : tool.handler = wrappedHandler parameters handler)
    (hval : validateParams parameters args = .error msg) :
    st.execute ⟨name, args⟩ ctx = ⟨name, .null, some msg⟩ := by
  simp only [RegistryState.execute, hget]
  rw [htool]
  simp only [wrappedHandler, hval]
  rfl

/-- C4 (amended): a required parameter that is absent from the arguments
always makes `execute` answer with a non-null `error` and `result: null`,
regardless of any declared `default` (the required check precedes default
injection); the error names the missing parameter — as
`Missing required parameter: <key>` — whenever the parameters declared
before it validate cleanly (an earlier parameter's own violation is
reported instead; see the counterexample). -/
theorem execute_required_missing (st : RegistryState) (ctx : ToolContext)
    (name description : String)
    (pre post : List (String × ParameterDefinition)) (k : String)
    (p : ParameterDefinition) (handler : ToolHandler) (tool : Tool)
    (args : Args)
    (hcreate : createTool name description (pre ++ (k, p) :: post) handler =
      .ok tool)
    (hget : st.get name (some ctx.botId) = some tool)
    (hk : k ∉ pre.map Prod.fst) (hreq : p.required = true)
    (hmiss : mapGet args k = none) :
    (∃ e, st.execute ⟨name, args⟩ ctx = ⟨name, .null, some e⟩) ∧
    (∀ args2, validateParams pre args = .ok args2 →
      st.execute ⟨name, args⟩ ctx =
        ⟨name, .null, some ("Missing required parameter: " ++ k)⟩) := by
  have htool := (createTool_ok_destruct _ _ _ _ _ hcreate).2
  have hval := validateParams_required_missing pre post k p args hk hreq hmiss
  constructor
  · obtain ⟨e, he⟩ := hval.1
    exact ⟨e, execute_validation_error st ctx name tool _ handler args e
      hget htool he⟩
  · intro args2 hok
    exact execute_validation_error st ctx name tool _ handler args _
      hget htool (hval.2 args2 hok)

/-- The spec of the witness tool for C4: a single required parameter that
also declares a default. -/
def paramsReqDefault : List (String × ParameterDefinition) :=
  [("target", { type := "string", description := "the target",
                required := true, default := some (.str "everything") })]

/-- The witness tool for C4, as `createTool` constructs it. -/
def toolReqDefault : Tool :=
  ⟨⟨"req_tool", "requires target", paramsReqDefault⟩,
   wrappedHandler paramsReqDefault (fun _ _ => .ok (.str "ran"))⟩

/-- Registry for the C4 witness. -/
def stReqDefault : RegistryState := { globalTools := [("req_tool", toolReqDefault)] }

/-- Witness for C4 (amended): calling the tool with an empty argument bag
fails with the message naming `target`, even though `target` declares a
default. -/
theorem execute_required_missing_witness :
    createTool "req_tool" "requires target" paramsReqDefault
      (fun _ _ => .ok (.str "ran")) = .ok toolReqDefault ∧
    stReqDefault.execute ⟨"req_tool", []⟩ ctx0 =
      ⟨"req_tool", .null, some "Missing required parameter: target"⟩ :=
  ⟨rfl,
   (execute_required_missing stReqDefault ctx0 "req_tool" "requires target"
      [] [] "target"
      { type := "string", description := "the target", required := true,
        default := some (.str "everything") }
      (fun _ _ => .ok (.str "ran")) toolReqDefault [] rfl rfl
      (by simp) rfl rfl).2 [] rfl⟩

/-- The spec of the counterexample tool for C4: an enum-constrained
parameter declared before a required one. -/
def paramsEnumThenRequired : List (String × ParameterDefinition) :=
  [("mode", { type := "string", description := "mode",
              enum := some ["fast"] }),
   ("zq", { type := "string", description := "the zq", required := true })]

/-- The counterexample tool for C4/C5 interplay. -/
def toolEnumThenRequired : Tool :=
  ⟨⟨"mixed_tool", "mixed", paramsEnumThenRequired⟩,
   wrappedHandler paramsEnumThenRequired (fun _ _ => .ok (.str "ran"))⟩

/-- Registry for the C4 counterexample. -/
def stEnumThenRequired : RegistryState :=
  { globalTools := [("mixed_tool", toolEnumThenRequired)] }

/-- Counterexample for C4 as stated: the required parameter `zq` is absent,
yet the error reported by `execute` names the *enum violation of `mode`*
(declared earlier in the spec) — it contains no character `z`, so it does
not name the missing parameter. -/
theorem execute_required_missing_counterexample :
    stEnumThenRequired.execute ⟨"mixed_tool", [("mode", .str "slow")]⟩ ctx0 =
      ⟨"mixed_tool", .null,
       some "Invalid value for mode: \x22slow\x22. Must be one of: fast"⟩ ∧
    ("Invalid value for mode: \x22slow\x22. Must be one of: fast").data.contains
      'z' = false ∧
    "Invalid value for mode: \x22slow\x22. Must be one of: fast" ≠
      "Missing required parameter: zq" :=
  ⟨rfl, by decide, by decide⟩

/-- C5 (amended): a supplied value outside a declared enum makes the
wrapped handler fail, and the underlying user-supplied handler is never
invoked — the outcome is the same for *every* handler, so its call count
is zero; the error names the offending value and the allowed set — as
`Invalid value for <key>: "<value>". Must be one of: <set>` — whenever the
parameters declared before it validate cleanly and the value survives the
required check (an earlier parameter's own violation, or the
missing-required error for a required parameter supplied as `null`, is
reported instead; see the counterexample). -/
theorem wrappedHandler_enum_rejects
    (pre post : List (String × ParameterDefinition)) (k : String)
    (p : ParameterDefinition) (args : Args) (ctx : ToolContext)
    (v : JsValue) (allowed : List String)
    (hk : k ∉ pre.map Prod.fst) (henum : p.enum = some allowed)
    (hv : mapGet args k = some v) (hinc : enumIncludes allowed v = false) :
    (∀ handler : ToolHandler, ∃ msg,
      wrappedHandler (pre ++ (k, p) :: post) handler args ctx =
        .error (.errObj msg)) ∧
    (∀ h1 h2 : ToolHandler,
      wrappedHandler (pre ++ (k, p) :: post) h1 args ctx =
        wrappedHandler (pre ++ (k, p) :: post) h2 args ctx) ∧
    (∀ (handler : ToolHandler) (args2 : Args),
      validateParams pre args = .ok args2 →
      p.required = false ∨ v ≠ JsValue.null →
      wrappedHandler (pre ++ (k, p) :: post) handler args ctx =
        .error (.errObj ("Invalid value for " ++ k ++ ": \x22" ++
          jsToString v ++ "\x22. Must be one of: " ++
          String.intercalate ", " allowed))) := by
  have hval := validateParams_enum_invalid pre post k p args v allowed
    hk henum hv hinc
  obtain ⟨⟨e, he⟩, hname⟩ := hval
  refine ⟨?_, ?_, ?_⟩
  · intro handler
    exact ⟨e, by simp only [wrappedHandler, he]⟩
  · intro h1 h2
    simp only [wrappedHandler, he]
  · intro handler args2 hok hcase
    simp only [wrappedHandler, hname args2 hok hcase]

/-- The spec of the witness tool for C5: one optional enum parameter. -/
def paramsUnits : List (String × ParameterDefinition) :=
  [("units", { type := "string", description := "units",
               enum := some ["celsius", "fahrenheit"] })]

/-- An instrumented handler answering `one`. -/
def handlerOne : ToolHandler := fun _ _ => .ok (.str "one")

/-- A second instrumented handler answering `two`. -/
def handlerTwo : ToolHandler := fun _ _ => .ok (.str "two")

/-- Witness for C5 (amended): the out-of-enum value `kelvin` is rejected
with the message naming it and the allowed set, identically for two
different handlers (so neither was invoked). -/
theorem wrappedHandler_enum_rejects_witness :
    (∃ msg, wrappedHandler paramsUnits handlerOne
      [("units", .str "kelvin")] ctx0 = .error (.errObj msg)) ∧
    wrappedHandler paramsUnits handlerOne [("units", .str "kelvin")] ctx0 =
      wrappedHandler paramsUnits handlerTwo [("units", .str "kelvin")] ctx0 ∧
    wrappedHandler paramsUnits handlerOne [("units", .str "kelvin")] ctx0 =
      .error (.errObj "Invalid value for units: \x22kelvin\x22. Must be one of: celsius, fahrenheit") :=
  have h := wrappedHandler_enum_rejects [] [] "units"
    { type := "string", description := "units",
      enum := some ["celsius", "fahrenheit"] }
    [("units", .str "kelvin")] ctx0 (.str "kelvin") ["celsius", "fahrenheit"]
    (by simp) rfl rfl (by decide)
  ⟨h.1 handlerOne, h.2.1 handlerOne handlerTwo,
   h.2.2 handlerOne [("units", .str "kelvin")] rfl (Or.inl rfl)⟩

/-- Counterexample for C5 as stated: in the two-parameter spec of
`paramsEnumThenRequired` reordered — a required parameter `aa` declared
before the enum parameter `mode` — the supplied out-of-enum value `slow`
triggers an error, but the error is `Missing required parameter: aa`: it
contains neither `w` (so it does not name the offending value `slow`) nor
`f` (so it does not name the allowed set `fast`). -/
def paramsRequiredThenEnum : List (String × ParameterDefinition) :=
  [("aa", { type := "string", description := "the aa", required := true }),
   ("mode", { type := "string", description := "mode",
              enum := some ["fast"] })]

/-- Counterexample for C5 as stated (see `paramsRequiredThenEnum`). -/
theorem wrappedHandler_enum_rejects_counterexample :
    wrappedHandler paramsRequiredThenEnum handlerOne
      [("mode", .str "slow")] ctx0 =
      .error (.errObj "Missing required parameter: aa") ∧
    ("Missing required parameter: aa").data.contains 'w' = false ∧
    ("Missing required parameter: aa").data.contains 'f' = false :=
  ⟨rfl, by decide, by decide⟩

/-- C10 (amended): in the validation gate, an argument explicitly supplied
as `null` counts as missing for the required check (`=== undefined ||
=== null`), yet never triggers default injection (`=== undefined` only):
for a non-required parameter the `null` is passed to the handler unchanged
when no enum is declared, while a declared enum rejects the `null` with
the invalid-value error (`null` is never a member of a string enum);
a strictly absent argument is the only case replaced by a declared
default. -/
theorem wrappedHandler_null_handling (k : String) (p : ParameterDefinition)
    (args : Args) (ctx : ToolContext) (handler : ToolHandler) (d : JsValue)
    (allowed : List String) :
    (mapGet args k = some JsValue.null → p.required = true →
      wrappedHandler [(k, p)] handler args ctx =
        .error (.errObj ("Missing required parameter: " ++ k))) ∧
    (mapGet args k = some JsValue.null → p.required = false →
      p.default = some d → p.enum = none →
      wrappedHandler [(k, p)] handler args ctx = handler args ctx) ∧
    (mapGet args k = none → p.required = false → p.default = some d →
      p.enum = none →
      wrappedHandler [(k, p)] handler args ctx =
        handler (mapSet args k d) ctx) ∧
    (mapGet args k = some JsValue.null → p.required = false →
      p.enum = some allowed →
      wrappedHandler [(k, p)] handler args ctx =
        .error (.errObj ("Invalid value for " ++ k ++ ": \x22" ++
          jsToString JsValue.null ++ "\x22. Must be one of: " ++
          String.intercalate ", " allowed))) := by
  refine ⟨?_, ?_, ?_, ?_⟩
  · intro hnull hreq
    simp only [wrappedHandler, validateParams, validateStep, hnull, hreq,
      isMissingValue, Bool.and_true]
    rfl
  · intro hnull hreq henum hen
    simp only [wrappedHandler, validateParams, validateStep, hnull, hreq,
      isMissingValue, Bool.false_and, Bool.and_false, if_neg]
    rw [applyDefault_present k p args JsValue.null hnull]
    simp only [checkEnum, hen]
    simp
  · intro hmiss hreq hdef hen
    simp only [wrappedHandler, validateParams, validateStep, hmiss, hreq,
      Bool.false_and, if_neg]
    simp only [applyDefault, hmiss, hdef, checkEnum, hen]
    simp
  · intro hnull hreq henum
    simp only [wrappedHandler, validateParams, validateStep, hnull, hreq,
      Bool.false_and, if_neg]
    rw [applyDefault_present k p args JsValue.null hnull]
    simp only [checkEnum, henum, hnull, enumIncludes]
    simp

/-- A required string parameter. -/
def paramReq : ParameterDefinition :=
  { type := "string", description := "p", required := true }

/-- A non-required string parameter with a default and no enum. -/
def paramDef : ParameterDefinition :=
  { type := "string", description := "p", default := some (.str "fast") }

/-- A non-required string parameter with a default and an enum. -/
def paramDefEnum : ParameterDefinition :=
  { type := "string", description := "p", default := some (.str "fast"),
    enum := some ["fast"] }

/-- A handler answering `ran` whatever it receives. -/
def handlerRan : ToolHandler := fun _ _ => .ok (.str "ran")

/-- Witness for C10 (amended): the four cases at concrete inputs —
required+null fails as missing; null with a default and no enum reaches
the handler unchanged; absent with a default reaches the handler with the
default injected; null with an enum fails the enum check. -/
theorem wrappedHandler_null_handling_witness :
    wrappedHandler [("mode", paramReq)] handlerRan [("mode", JsValue.null)]
      ctx0 = .error (.errObj "Missing required parameter: mode") ∧
    wrappedHandler [("mode", paramDef)] handlerRan [("mode", JsValue.null)]
      ctx0 = handlerRan [("mode", JsValue.null)] ctx0 ∧
    wrappedHandler [("mode", paramDef)] handlerRan [] ctx0 =
      handlerRan [("mode", .str "fast")] ctx0 ∧
    wrappedHandler [("mode", paramDefEnum)] handlerRan
      [("mode", JsValue.null)] ctx0 =
      .error (.errObj "Invalid value for mode: \x22null\x22. Must be one of: fast") :=
  ⟨(wrappedHandler_null_handling "mode" paramReq [("mode", JsValue.null)]
      ctx0 handlerRan .null []).1 rfl rfl,
   (wrappedHandler_null_handling "mode" paramDef [("mode", JsValue.null)]
      ctx0 handlerRan (.str "fast") []).2.1 rfl rfl rfl rfl,
   (wrappedHandler_null_handling "mode" paramDef [] ctx0 handlerRan
      (.str "fast") []).2.2.1 rfl rfl rfl rfl,
   (wrappedHandler_null_handling "mode" paramDefEnum [("mode", JsValue.null)]
      ctx0 handlerRan (.str "fast") ["fast"]).2.2.2 rfl rfl rfl⟩

/-- Counterexample for C10 as stated: for a non-required parameter with a
declared default *and a declared enum*, a supplied `null` is *not* passed
through to the handler — the enum check fires on it (`null !== undefined`)
and the wrapped handler fails, never invoking the handler. -/
theorem wrappedHandler_null_handling_counterexample :
    wrappedHandler [("mode", paramDefEnum)] handlerRan
      [("mode", JsValue.null)] ctx0 =
      .error (.errObj "Invalid value for mode: \x22null\x22. Must be one of: fast") ∧
    handlerRan [("mode", JsValue.null)] ctx0 = .ok (.str "ran") ∧
    wrappedHandler [("mode", paramDefEnum)] handlerRan
      [("mode", JsValue.null)] ctx0 ≠ handlerRan [("mode", JsValue.null)] ctx0 :=
  ⟨rfl, rfl, fun h => nomatch h⟩
/-- C3: `chat` and `chatStream` fail fast with `Unknown LLM provider:
<provider>` for every provider value outside the three enumerated ones
(no silent fallback in the dispatch), default to `vertex` when the
provider is unspecified, and `getDefaultConfig` returns, for each
enumerated provider, a configuration with that provider's default model
and no credential. -/
theorem llm_router_dispatch :
    (∀ (p : String) (m ak : Option String) (t : Option Int) (mt : Option Nat),
      p ∉ (["vertex", "openai", "anthropic"] : List String) →
      chatDispatch ⟨some p, m, ak, t, mt⟩ =
        .error ("Unknown LLM provider: " ++ p) ∧
      chatStreamDispatch ⟨some p, m, ak, t, mt⟩ =
        .error ("Unknown LLM provider: " ++ p)) ∧
    (∀ (m ak : Option String) (t : Option Int) (mt : Option Nat),
      chatDispatch ⟨none, m, ak, t, mt⟩ = .ok .vertex ∧
      chatStreamDispatch ⟨none, m, ak, t, mt⟩ = .ok .vertex) ∧
    getDefaultConfig "vertex" =
      ⟨some "vertex", some DEFAULT_VERTEX_MODEL, none, none, none⟩ ∧
    getDefaultConfig "openai" =
      ⟨some "openai", some DEFAULT_OPENAI_MODEL, none, none, none⟩ ∧
    getDefaultConfig "anthropic" =
      ⟨some "anthropic", some DEFAULT_ANTHROPIC_MODEL, none, none, none⟩ := by
  refine ⟨?_, ?_, rfl, rfl, rfl⟩
  · intro p m ak t mt hp
    simp only [List.mem_cons, List.not_mem_nil, or_false, not_or] at hp
    obtain ⟨h1, h2, h3⟩ := hp
    constructor
    · simp only [chatDispatch, Option.getD]
    · simp only [chatStreamDispatch, Option.getD]
  · intro m ak t mt
    exact ⟨rfl, rfl⟩

/-- Witness for C3: the unknown provider `gemini` is refused by both entry
points. -/
theorem llm_router_dispatch_witness :
    chatDispatch ⟨some "gemini", none, none, none, none⟩ =
      .error "Unknown LLM provider: gemini" ∧
    chatStreamDispatch ⟨some "gemini", none, none, none, none⟩ =
      .error "Unknown LLM provider: gemini" :=
  llm_router_dispatch.1 "gemini" none none none none (by decide)

/-- C9: for every streaming chat call on any of the three providers, every
yielded fragment is a non-empty text increment, and the `content` of the
final `ChatResult` the generator returns equals the concatenation, in
yield order, of all yielded fragments — whatever chunks the network
delivers and whatever each parsed record's text delta is. -/
theorem stream_yield_invariant :
    (∀ chunks : List VertexResponse,
      allNonEmpty (chatWithVertexStream chunks).1 = true ∧
      joinAll (chatWithVertexStream chunks).1 =
        (chatWithVertexStream chunks).2.content) ∧
    (∀ (extract : String → Option String) (chunks : List String),
      allNonEmpty (chatWithOpenAIStream extract chunks).1 = true ∧
      joinAll (chatWithOpenAIStream extract chunks).1 =
        (chatWithOpenAIStream extract chunks).2.content) ∧
    (∀ (extract : String → Option String) (chunks : List String),
      allNonEmpty (chatWithAnthropicStream extract chunks).1 = true ∧
      joinAll (chatWithAnthropicStream extract chunks).1 =
        (chatWithAnthropicStream extract chunks).2.content) := by
  refine ⟨?_, ?_, ?_⟩
  · intro chunks
    have h := foldlPreserve StreamInv
      (fun acc chunk => streamPush acc (vertexFirstPartText chunk))
      (fun b a hb => streamPush_inv b _ hb) chunks ([], "") ⟨rfl, rfl⟩
    exact ⟨h.1, h.2⟩
  · intro extract chunks
    have hinit : StreamInv (([], "") : List String × String) := ⟨rfl, rfl⟩
    have h := foldlPreserve (fun st => StreamInv st.2)
      (sseConsumeChunk (openaiProcessLine extract))
      (fun b a hb => sseConsumeChunk_inv _ (openaiProcessLine_inv extract) b a hb)
      chunks ("", ([], "")) hinit
    exact ⟨h.1, h.2⟩
  · intro extract chunks
    have hinit : StreamInv (([], "") : List String × String) := ⟨rfl, rfl⟩
    have h := foldlPreserve (fun st => StreamInv st.2)
      (sseConsumeChunk (anthropicProcessLine extract))
      (fun b a hb =>
        sseConsumeChunk_inv _ (anthropicProcessLine_inv extract) b a hb)
      chunks ("", ([], "")) hinit
    exact ⟨h.1, h.2⟩

/-- C2 (amended): for every provider adapter, when the first response
contains tool-invocation blocks and a `toolContext` is supplied, the
adapter converts each block into a canonical `ToolCallRequest`, calls
`executeMany`, and constructs a second request appending the original
assistant turn containing the tool-call blocks and one tool-result turn
per call; the payload of each tool-result turn is
`JSON.stringify(result.error || result.result)` for OpenAI and Anthropic
(JavaScript `||`: an *empty* error string falls through to the result —
see the counterexample against the claimed `??`), while Vertex carries the
*un-stringified* value `result.error || result.result` inside a
`functionResponse` part; the second response's plain text becomes the
final `content`, and the returned result carries
`{content, toolCalls, toolResults}`. -/
theorem adapters_tool_round_trip :
    (∀ (st : RegistryState) (message : String) (history : List ChatMessage)
        (ctx : ToolContext) (resp1 : VertexResponse)
        (send2 : List VertexContent → VertexResponse)
        (parts1 : List VertexPart) (rest : List (List VertexPart)),
      resp1.candidates = parts1 :: rest →
      vertexFunctionCalls parts1 ≠ [] →
      chatWithVertex st message history (some ctx) resp1 send2 =
        (let toolCalls := vertexFunctionCalls parts1
         let toolResults := st.executeMany toolCalls ctx
         let secondReq := vertexHistory history ++
            [.turn "user" [.text message], .turn "model" parts1,
             .functionResponses (toolResults.map fun tr =>
                ⟨tr.name, jsOrErrorResult tr⟩)]
         .ok { result := { content := vertexFirstPartText (send2 secondReq),
                           toolCalls := some toolCalls,
                           toolResults := some toolResults },
               secondRequest := some secondReq })) ∧
    (∀ (st : RegistryState) (message : String) (apiKey : Option String)
        (systemPrompt : Option String) (history : List ChatMessage)
        (ctx : ToolContext) (resp1 : OpenAIResponse)
        (send2 : List OpenAIReqMessage → OpenAIResponse)
        (choiceMsg : OpenAIChoiceMessage) (rest : List OpenAIChoiceMessage)
        (blocks : List OpenAIToolCallBlock),
      jsTruthyStr apiKey = true →
      resp1.choices = choiceMsg :: rest →
      choiceMsg.tool_calls = some blocks →
      blocks ≠ [] →
      chatWithOpenAI st message apiKey systemPrompt history (some ctx)
          resp1 send2 =
        (let toolCalls := blocks.map fun tc =>
            (⟨tc.fnName, tc.fnArguments⟩ : ToolCallRequest)
         let toolResults := st.executeMany toolCalls ctx
         let secondReq := openaiBaseMessages message systemPrompt history ++
            [.fromResponse choiceMsg] ++
            ((toolResults.zip blocks).map fun (tr, tc) =>
              .toolMsg tc.id (jsonStringify (jsOrErrorResult tr)))
         .ok { result := { content := openaiFirstContent (send2 secondReq),
                           toolCalls := some toolCalls,
                           toolResults := some toolResults },
               secondRequest := some secondReq })) ∧
    (∀ (st : RegistryState) (message : String) (apiKey : Option String)
        (history : List ChatMessage) (ctx : ToolContext)
        (resp1 : AnthropicResponse)
        (send2 : List AnthropicReqMessage → AnthropicResponse),
      jsTruthyStr apiKey = true →
      resp1.content.filter isToolUseBlock ≠ [] →
      chatWithAnthropic st message apiKey history (some ctx) resp1 send2 =
        (let toolUseBlocks := resp1.content.filter isToolUseBlock
         let toolCalls := toolUseBlocks.filterMap fun b =>
            match b with
            | .toolUse _ n inp => some (⟨n, inp.getD []⟩ : ToolCallRequest)
            | _ => none
         let toolResults := st.executeMany toolCalls ctx
         let items := (toolUseBlocks.zip toolResults).filterMap fun (b, tr) =>
            match b with
            | .toolUse i _ _ =>
              some (⟨i, jsonStringify (jsOrErrorResult tr)⟩ :
                AnthropicToolResultItem)
            | _ => none
         let secondReq := anthropicBaseMessages message history ++
            [.assistantBlocks resp1.content, .toolResultsTurn items]
         .ok { result :=
                { content := anthropicFindText (send2 secondReq).content,
                  toolCalls := some toolCalls,
                  toolResults := some toolResults },
               secondRequest := some secondReq })) := by
  refine ⟨?_, ?_, ?_⟩
  · intro st message history ctx resp1 send2 parts1 rest hresp hcalls
    simp only [chatWithVertex, hresp, List.head?_cons]
    rw [if_pos (List.length_pos.mpr hcalls)]
  · intro st message apiKey systemPrompt history ctx resp1 send2 choiceMsg
      rest blocks hkey hresp htc hblocks
    simp only [chatWithOpenAI, hkey, hresp, List.head?_cons, htc]
    rfl
  · intro st message apiKey history ctx resp1 send2 hkey hblocks
    simp only [chatWithAnthropic, hkey]
    rw [if_pos (List.length_pos.mpr hblocks)]
    rfl

/-- A first Vertex response carrying one tool-call part for `echo`. -/
def respVertexCall : VertexResponse :=
  ⟨[[.functionCall "echo" (some [])]]⟩

/-- A second Vertex response carrying plain text. -/
def send2Vertex : List VertexContent → VertexResponse :=
  fun _ => ⟨[[.text "final answer"]]⟩

/-- A first OpenAI response carrying one `tool_calls` block for `echo`. -/
def respOpenAICall : OpenAIResponse :=
  ⟨[{ content := none, tool_calls := some [⟨"call_1", "echo", []⟩] }]⟩

/-- A second OpenAI response carrying plain text. -/
def send2OpenAI : List OpenAIReqMessage → OpenAIResponse :=
  fun _ => ⟨[{ content := some "final answer", tool_calls := none }]⟩

/-- A first Anthropic response carrying one `tool_use` block for `echo`. -/
def respAnthropicCall : AnthropicResponse :=
  ⟨[.toolUse "tu_1" "echo" (some [])]⟩

/-- A second Anthropic response carrying one text block. -/
def send2Anthropic : List AnthropicReqMessage → AnthropicResponse :=
  fun _ => ⟨[.text "final answer"]⟩

/-- Witness for C2 (amended): one `echo` tool round trip on each provider;
the tool-result turn carries `"done"` (stringified) for OpenAI and
Anthropic, and the raw value for Vertex. -/
theorem adapters_tool_round_trip_witness :
    chatWithVertex st0 "hi" [] (some ctx0) respVertexCall send2Vertex =
      .ok { result := { content := "final answer",
                        toolCalls := some [⟨"echo", []⟩],
                        toolResults := some [⟨"echo", .str "done", none⟩] },
            secondRequest := some
              [.turn "user" [.text "hi"],
               .turn "model" [.functionCall "echo" (some [])],
               .functionResponses [⟨"echo", .str "done"⟩]] } ∧
    chatWithOpenAI st0 "hi" (some "sk") none [] (some ctx0) respOpenAICall
        send2OpenAI =
      .ok { result := { content := "final answer",
                        toolCalls := some [⟨"echo", []⟩],
                        toolResults := some [⟨"echo", .str "done", none⟩] },
            secondRequest := some
              [.plain "user" "hi",
               .fromResponse
                 { content := none,
                   tool_calls := some [⟨"call_1", "echo", []⟩] },
               .toolMsg "call_1" "\x22done\x22"] } ∧
    chatWithAnthropic st0 "hi" (some "sk") [] (some ctx0) respAnthropicCall
        send2Anthropic =
      .ok { result := { content := "final answer",
                        toolCalls := some [⟨"echo", []⟩],
                        toolResults := some [⟨"echo", .str "done", none⟩] },
            secondRequest := some
              [.plain "user" "hi",
               .assistantBlocks [.toolUse "tu_1" "echo" (some [])],
               .toolResultsTurn [⟨"tu_1", "\x22done\x22"⟩]] } :=
  ⟨adapters_tool_round_trip.1 st0 "hi" [] ctx0 respVertexCall send2Vertex
     [.functionCall "echo" (some [])] [] rfl (fun h => nomatch h),
   adapters_tool_round_trip.2.1 st0 "hi" (some "sk") none [] ctx0
     respOpenAICall send2OpenAI
     { content := none, tool_calls := some [⟨"call_1", "echo", []⟩] } []
     [⟨"call_1", "echo", []⟩] rfl rfl rfl (fun h => nomatch h),
   adapters_tool_round_trip.2.2 st0 "hi" (some "sk") [] ctx0
     respAnthropicCall send2Anthropic rfl (fun h => nomatch h)⟩

/-- A tool whose handler throws `new Error('')` — an `Error` with an empty
message, giving a `ToolCallResult` with `error` present but empty. -/
def toolEmptyThrow : Tool :=
  ⟨⟨"t", "throws an empty-message error", []⟩,
   wrappedHandler [] (fun _ _ => .error (.errObj ""))⟩

/-- Registry holding `toolEmptyThrow`. -/
def stEmptyThrow : RegistryState := { globalTools := [("t", toolEmptyThrow)] }

/-- A first OpenAI response calling the empty-throwing tool. -/
def respOpenAIEmpty : OpenAIResponse :=
  ⟨[{ content := none, tool_calls := some [⟨"call_1", "t", []⟩] }]⟩

/-- Counterexample for C2 as stated: the claim says each tool-result turn
carries `JSON.stringify(result.error ?? result.result)`.  The code uses
`result.error || result.result`.  With a handler that throws
`new Error('')`, the result has `error` present but *empty*, so `??` keeps
the error (payload `""`, stringified `"\x22\x22"`) while the code's `||`
falls through to the null result (payload `"null"`): the tool message the
adapter actually constructs carries `"null"`, not the claimed value. -/
theorem adapters_tool_round_trip_counterexample :
    chatWithOpenAI stEmptyThrow "hi" (some "sk") none [] (some ctx0)
        respOpenAIEmpty (fun _ => ⟨[]⟩) =
      .ok { result := { content := "",
                        toolCalls := some [⟨"t", []⟩],
                        toolResults := some [⟨"t", .null, some ""⟩] },
            secondRequest := some
              [.plain "user" "hi",
               .fromResponse
                 { content := none, tool_calls := some [⟨"call_1", "t", []⟩] },
               .toolMsg "call_1" "null"] } ∧
    jsonStringify (specNullishErrorResult ⟨"t", .null, some ""⟩) =
      "\x22\x22" ∧
    ("null" : String) ≠ "\x22\x22" :=
  ⟨rfl, rfl, by decide⟩
